import Mathlib

/-!
Shallow embedding of the agent conversation core of the repository.

The embedded code comes from two modules:
* src/convex/aiTown/agentInputs.ts — the input handlers guarded by the
  per-agent operation fence (finishRememberConversation, finishDoSomething,
  agentFinishSendingMessage);
* the agent conversation module (startConversationMessage,
  continueConversationMessage, updateTokens, dumpConversationTable,
  previousMessages, stopWords) together with the JamAI API wrapper
  (getChatTableRows, dumpMemoryIntoKnowledgeTable, deleteConversationTable).

TypeScript strings are Lean String values; the character-wise
String.prototype.toLowerCase is modelled on the underlying character list.
In-place mutation of world objects is modelled by returning the updated
state; a TypeScript throw is modelled by an Except.error paired with the
state at the moment of the throw (mutations already applied stay applied).
External-service calls whose errors the wrappers catch are modelled by the
wrapper returning a plain value.
-/

/-- A ConversationUsageRecord from the agent's conversationList:
an entry pushed at conversation start, for token tracking
(object literal with fields conversationId and tokenCount). -/
structure ConvRecord where
  conversationId : String
  tokenCount : Nat
deriving DecidableEq

/-- Embedding of the in-place update performed by updateTokens and by
dumpConversationTable on an agent's conversationList: Array.prototype.find
returns the first record whose conversationId matches, and the field write
mutates exactly that record. When no record matches, the list is unchanged. -/
def setTokenFirst (l : List ConvRecord) (key : String) (v : Nat) : List ConvRecord :=
  match l with
  | [] => []
  | r :: rs =>
    if r.conversationId == key then { r with tokenCount := v } :: rs
    else r :: setTokenFirst rs key v

/-- Embedding of updateTokens (agent conversation module): writes the
reported cumulative total into the first matching record of the acting
agent's list (key player-otherPlayer) and, when the other agent exists,
into the first matching record of its list (key otherPlayer-player).
No record is created when none matches. -/
def updateTokens (agentList : List ConvRecord) (otherAgentList : Option (List ConvRecord))
    (playerName otherPlayerName : String) (totalTokens : Nat) :
    List ConvRecord × Option (List ConvRecord) :=
  (setTokenFirst agentList (playerName ++ "-" ++ otherPlayerName) totalTokens,
   otherAgentList.map (fun l => setTokenFirst l (otherPlayerName ++ "-" ++ playerName) totalTokens))

/-- Embedding of the conversationList updates performed by
startConversationMessage: the record named conversation has id
player-otherPlayer, the record named otherConversation has id
otherPlayer-player; each list receives a push only if its guard finds no
record with the checked id. The source pushes the record named
conversation into BOTH lists (the push into the other agent's list uses
conversation, not otherConversation, exactly as in the source). -/
def startConvListUpdate (agentList : List ConvRecord) (otherAgentList : Option (List ConvRecord))
    (playerName otherPlayerName : String) :
    List ConvRecord × Option (List ConvRecord) :=
  let conversation : ConvRecord := { conversationId := playerName ++ "-" ++ otherPlayerName, tokenCount := 0 }
  let otherConversation : ConvRecord := { conversationId := otherPlayerName ++ "-" ++ playerName, tokenCount := 0 }
  let newAgentList :=
    if agentList.any (fun conv => conv.conversationId == conversation.conversationId) then agentList
    else agentList ++ [conversation]
  let newOtherList := otherAgentList.map (fun l =>
    if l.any (fun conv => conv.conversationId == otherConversation.conversationId) then l
    else l ++ [conversation])
  (newAgentList, newOtherList)

/-- Embedding of the lazy provisioning branch of continueConversationMessage:
when the counterpart is human and the conversation has exactly one message,
the agent pushes its own record (id player-otherPlayer) unless already present. -/
def continueConvListUpdate (agentList : List ConvRecord) (otherHuman : Bool)
    (numMessages : Nat) (playerName otherPlayerName : String) : List ConvRecord :=
  if otherHuman && numMessages == 1 then
    let conversation : ConvRecord := { conversationId := playerName ++ "-" ++ otherPlayerName, tokenCount := 0 }
    if agentList.any (fun conv => conv.conversationId == conversation.conversationId) then agentList
    else agentList ++ [conversation]
  else agentList

/-- A player reference as passed to previousMessages: the id and display name. -/
structure PlayerRef where
  id : String
  name : String
deriving DecidableEq

/-- A stored conversation message as returned by listMessages: its author
player id and its text. -/
structure Message where
  author : String
  text : String
deriving DecidableEq

/-- A message of the generation request (role plus content). -/
structure LLMMessage where
  role : String
  content : String
deriving DecidableEq

/-- Embedding of previousMessages (agent conversation module): when the
message list is non-empty it takes the entry at index length - 1 (the most
recent message, whoever authored it), formats it as
author.name to recipient.name: text, and returns that single message;
otherwise it returns the empty list. -/
def previousMessages (player otherPlayer : PlayerRef) (prevMessages : List Message) :
    List LLMMessage :=
  match prevMessages.getLast? with
  | none => []
  | some message =>
    let author := if message.author == player.id then player else otherPlayer
    let recipient := if message.author == player.id then otherPlayer else player
    [{ role := "user", content := author.name ++ " to " ++ recipient.name ++ ": " ++ message.text }]

/-- Character-wise lowercasing, the model of String.prototype.toLowerCase
used by stopWords. -/
def tsToLower (s : String) : String :=
  String.mk (s.data.map Char.toLower)

/-- Embedding of stopWords (agent conversation module): one variant
otherPlayer to player, expanded to the variant with a colon appended and
its lowercased form with a colon appended. -/
def stopWords (otherPlayer player : String) : List String :=
  let variants := [otherPlayer ++ " to " ++ player]
  variants.flatMap (fun stop => [stop ++ ":", tsToLower stop ++ ":"])

/-- An external event issued by startConversationMessage, in program order:
provisioning a conversation transcript table (createAgentConversationTable)
or dispatching the chat completion for the opening line. -/
inductive ExtEvent where
  | provisionTranscript (chatTemplateId : Option String) (transcriptId : String)
  | generate (conversationId : String) (stop : List String)
deriving DecidableEq

/-- Embedding of the external calls of startConversationMessage, in the
order the source awaits them: the initiator's transcript
player-otherPlayer is always provisioned; the counterpart's transcript
otherPlayer-player is provisioned only when the counterpart is not human;
the chat completion for the opening line is dispatched last. -/
def startConversationEvents (playerName otherPlayerName : String) (otherHuman : Bool)
    (agentChatTableId : String) (otherAgentChatTableId : Option String) : List ExtEvent :=
  [ExtEvent.provisionTranscript (some agentChatTableId) (playerName ++ "-" ++ otherPlayerName)]
  ++ (if otherHuman then []
      else [ExtEvent.provisionTranscript otherAgentChatTableId (otherPlayerName ++ "-" ++ playerName)])
  ++ [ExtEvent.generate (playerName ++ "-" ++ otherPlayerName) (stopWords otherPlayerName playerName)]

/-- A row of a conversation transcript table, as listed by the external
service: the optional User and AI cell texts and the Updated at stamp. -/
structure Row where
  User : Option String
  AI : Option String
  updatedAt : String
deriving DecidableEq

/-- The external generation service's observable state for consolidation:
the transcript (chat) tables keyed by table id, and the sequence of
documents uploaded into knowledge tables (knowledge table id, content). -/
structure ExternalState where
  chatTables : List (String × List Row)
  uploads : List (String × String)
deriving DecidableEq

/-- The raw listRows call of the external service: fails when the table
does not exist, otherwise returns the rows windowed by offset and limit. -/
def jamaiListRows (st : ExternalState) (tableId : String) (offset limit : Nat) :
    Except String (List Row) :=
  match st.chatTables.lookup tableId with
  | none => Except.error ("Table " ++ tableId ++ " cannot be found")
  | some rows => Except.ok ((rows.drop offset).take limit)

/-- Embedding of getChatTableRows (JamAI API wrapper): catches any listRows
error, logs it, and returns undefined — modelled as none. -/
def getChatTableRows (st : ExternalState) (tableId : String) (offset limit : Nat) :
    Option (List Row) :=
  match jamaiListRows st tableId offset limit with
  | Except.ok rows => some rows
  | Except.error _ => none

/-- First index at which pat occurs in s, the model of
String.prototype.indexOf used by dumpMemory (none when absent). -/
def findSubstr (pat : List Char) : List Char → Option Nat
  | [] => if pat.isPrefixOf ([] : List Char) then some 0 else none
  | c :: t =>
    if pat.isPrefixOf (c :: t) then some 0
    else (findSubstr pat t).map Nat.succ

/-- String-level wrapper of findSubstr. -/
def strIndexOf (s pat : String) : Option Nat :=
  findSubstr pat.data s.data

/-- Embedding of the content assembly of dumpMemory: the counterpart's
identity line first when available, then, over the reversed rows, either
the verbatim tail of the User cell from the counterpart's dialogue marker
onward (with a started-at line) or a synthetic summary marker, followed by
the AI cell prefixed with the speaking agent's name. Rows without a User
cell contribute nothing. -/
def dumpMemoryLines (items : List Row) (player otherPlayer : String)
    (otherPlayDesc : Option String) : List String :=
  (match otherPlayDesc with
   | some d => [d]
   | none => []) ++
  items.reverse.flatMap (fun item =>
    match item.User with
    | none => []
    | some userContent =>
      let marker := otherPlayer ++ " to " ++ player ++ ":"
      (match strIndexOf userContent marker with
       | some i =>
         ["Conversation started at: " ++ item.updatedAt,
          String.mk (userContent.data.drop i)]
       | none =>
         ["Summary of conversation with " ++ otherPlayer ++ " that ended at "
            ++ item.updatedAt ++ ": \n"]) ++
      (match item.AI with
       | some a => [player ++ ": " ++ a]
       | none => []))

/-- Embedding of dumpMemoryIntoKnowledgeTable (JamAI API wrapper): uploads
one document into the knowledge table of the named agent. -/
def dumpMemoryIntoKnowledgeTable (st : ExternalState) (agentId fileContent : String) :
    ExternalState :=
  { st with uploads := st.uploads ++ [("Knowledge_Ai-Town-" ++ agentId, fileContent)] }

/-- Embedding of dumpMemory (agent conversation module): joins the
assembled lines with newlines and uploads the result into the speaking
agent's knowledge table. -/
def dumpMemory (st : ExternalState) (items : List Row) (player otherPlayer : String)
    (otherPlayDesc : Option String) : ExternalState :=
  dumpMemoryIntoKnowledgeTable st player
    (String.intercalate "\n" (dumpMemoryLines items player otherPlayer otherPlayDesc))

/-- The raw deleteTable call of the external service: fails when the table
does not exist, otherwise removes it. -/
def jamaiDeleteTable (st : ExternalState) (tableId : String) : Except String ExternalState :=
  match st.chatTables.lookup tableId with
  | none => Except.error ("Table " ++ tableId ++ " cannot be found")
  | some _ => Except.ok { st with chatTables := st.chatTables.filter (fun p => p.1 != tableId) }

/-- Embedding of deleteConversationTable (JamAI API wrapper): catches any
deleteTable error and logs it, so a delete of an absent table completes
normally with the state unchanged. -/
def deleteConversationTable (st : ExternalState) (tableId : String) : ExternalState :=
  match jamaiDeleteTable st tableId with
  | Except.ok st2 => st2
  | Except.error _ => st

/-- Embedding of dumpConversationTable (agent conversation module): reads
the player-otherPlayer transcript with the wrapper's default window
(offset 0, limit 100) and, when rows came back, dumps them into the
player's knowledge table; does the same for otherPlayer-player into the
counterpart's knowledge table; zeroes the tokenCount of the first matching
record of the acting agent's conversationList; finally deletes the
player-otherPlayer transcript. The counterpart's record is looked up by
the source but never written, and only the one transcript is deleted. -/
def dumpConversationTable (st : ExternalState) (playerName otherPlayerName : String)
    (agentConversationList : List ConvRecord) (otherAgentIdentity : Option String) :
    ExternalState × List ConvRecord :=
  let st1 :=
    match getChatTableRows st (playerName ++ "-" ++ otherPlayerName) 0 100 with
    | some data => dumpMemory st data playerName otherPlayerName otherAgentIdentity
    | none => st
  let st2 :=
    match getChatTableRows st1 (otherPlayerName ++ "-" ++ playerName) 0 100 with
    | some otherData => dumpMemory st1 otherData otherPlayerName playerName otherAgentIdentity
    | none => st1
  let newList := setTokenFirst agentConversationList (playerName ++ "-" ++ otherPlayerName) 0
  (deleteConversationTable st2 (playerName ++ "-" ++ otherPlayerName), newList)

/-- An agent's inProgressOperation: the fencing token, the operation name
and its start time. Modelled from the spec: the Agent class lives outside
the given sources; the spec describes the operation as kind plus fencing
token plus creation time, and the handlers compare only operationId. -/
structure Operation where
  operationId : String
  name : String
  started : Nat
deriving DecidableEq

/-- A player activity value. Modelled from the spec: activity contents are
outside the core (the handlers assign the value wholesale and never
inspect it), so it is carried as an opaque description and end time. -/
structure Activity where
  description : String
  untilTime : Nat
deriving DecidableEq

/-- A 2D point, the destination argument of finishDoSomething. -/
structure Point where
  x : Int
  y : Int
deriving DecidableEq

/-- The world-state fields of a Player that the embedded handlers touch:
its id and its current activity. Position and pathfinding are excluded by
the spec; movePlayer is recorded as an effect instead. -/
structure PlayerState where
  id : String
  activity : Option Activity
deriving DecidableEq

/-- The world-state fields of an Agent (src/convex/aiTown/agentInputs.ts
builds agents with exactly these fields). -/
structure Agent where
  id : String
  playerId : String
  inProgressOperation : Option Operation
  lastConversation : Option Nat
  lastInviteAttempt : Option Nat
  toRemember : Option String
  knowledgeTableId : String
  chatTableId : String
  conversationList : List ConvRecord
deriving DecidableEq

/-- The world-state fields of a Conversation that agentFinishSendingMessage
reads. Modelled from the spec: the Conversation class is outside the given
sources; the handler only looks the conversation up and delegates to it. -/
structure Conversation where
  id : String
  created : Nat
  numMessages : Nat
deriving DecidableEq

/-- Calls the handlers delegate to components outside the embedded core
(Conversation.start, movePlayer, finishSendingMessage, Conversation.leave).
Modelled from the spec: pathing/movement and the conversation state machine
internals are external collaborators, so the handlers record the delegated
call and its arguments. -/
inductive Effect where
  | conversationStart (playerId inviteeId : String) (now : Nat)
  | move (playerId : String) (destination : Point)
  | finishSendingMessage (playerId conversationId : String) (timestamp : Nat)
  | leave (conversationId playerId : String) (now : Nat)
deriving DecidableEq

/-- The world state the handlers read and mutate: agents, players and
conversations keyed by id, plus the log of delegated external effects. -/
structure GameState where
  agents : List (String × Agent)
  players : List (String × PlayerState)
  conversations : List (String × Conversation)
  effects : List Effect
deriving DecidableEq

/-- Writing an agent back into the world map: the entry with the given key
is replaced (mutation of the object held by the map). -/
def setAgent (l : List (String × Agent)) (k : String) (a : Agent) : List (String × Agent) :=
  l.map (fun p => if p.1 = k then (p.1, a) else p)

/-- Writing a player back into the world map. -/
def setPlayer (l : List (String × PlayerState)) (k : String) (pl : PlayerState) :
    List (String × PlayerState) :=
  l.map (fun p => if p.1 = k then (p.1, pl) else p)

/-- Arguments of finishRememberConversation. -/
structure FinishRememberArgs where
  operationId : String
  agentId : String
deriving DecidableEq

/-- Embedding of the finishRememberConversation handler
(src/convex/aiTown/agentInputs.ts): missing agent throws; a missing or
mismatched inProgressOperation only logs and returns null; a matching one
deletes both inProgressOperation and toRemember. The Except component is
ok for a normal return of null and error for a throw; the GameState
component is the world as left at that point. -/
def finishRememberConversation (g : GameState) (args : FinishRememberArgs) :
    GameState × Except String Unit :=
  match g.agents.lookup args.agentId with
  | none => (g, Except.error ("Couldn't find agent: " ++ args.agentId))
  | some agent =>
    match agent.inProgressOperation with
    | none => (g, Except.ok ())
    | some op =>
      if op.operationId != args.operationId then (g, Except.ok ())
      else
        let agent1 := { agent with inProgressOperation := none, toRemember := none }
        ({ g with agents := setAgent g.agents args.agentId agent1 }, Except.ok ())

/-- Arguments of finishDoSomething. -/
structure FinishDoSomethingArgs where
  operationId : String
  agentId : String
  destination : Option Point
  invitee : Option String
  activity : Option Activity
deriving DecidableEq

/-- Embedding of the finishDoSomething handler
(src/convex/aiTown/agentInputs.ts): missing agent throws; a missing or
mismatched inProgressOperation returns null with no change; otherwise the
fence is cleared FIRST, then the player is fetched (the source asserts it
non-null; its absence is a runtime fault, modelled as an error), then the
optional invitee is resolved — a missing invitee throws AFTER the fence
was already cleared — and Conversation.start, movePlayer and the activity
assignment are applied in order. -/
def finishDoSomething (g : GameState) (now : Nat) (args : FinishDoSomethingArgs) :
    GameState × Except String Unit :=
  match g.agents.lookup args.agentId with
  | none => (g, Except.error ("Couldn't find agent: " ++ args.agentId))
  | some agent =>
    match agent.inProgressOperation with
    | none => (g, Except.ok ())
    | some op =>
      if op.operationId != args.operationId then (g, Except.ok ())
      else
        let agent1 := { agent with inProgressOperation := none }
        let g1 := { g with agents := setAgent g.agents args.agentId agent1 }
        match g1.players.lookup agent.playerId with
        | none => (g1, Except.error ("Couldn't find player: " ++ agent.playerId))
        | some player =>
          let afterInvite : GameState × Except String Unit :=
            match args.invitee with
            | none => (g1, Except.ok ())
            | some inviteeId =>
              match g1.players.lookup inviteeId with
              | none => (g1, Except.error ("Couldn't find player: " ++ inviteeId))
              | some _ =>
                let g2 := { g1 with effects := g1.effects ++ [Effect.conversationStart agent.playerId inviteeId now] }
                let agent2 := { agent1 with lastInviteAttempt := some now }
                let g3 := { g2 with agents := setAgent g2.agents args.agentId agent2 }
                (g3, Except.ok ())
          match afterInvite with
          | (g2, Except.error e) => (g2, Except.error e)
          | (g2, Except.ok _) =>
            let g3 :=
              match args.destination with
              | none => g2
              | some d => { g2 with effects := g2.effects ++ [Effect.move agent.playerId d] }
            let g4 :=
              match args.activity with
              | none => g3
              | some act =>
                let player1 := { player with activity := some act }
                { g3 with players := setPlayer g3.players agent.playerId player1 }
            (g4, Except.ok ())

/-- Arguments of agentFinishSendingMessage. -/
structure AgentFinishSendingMessageArgs where
  agentId : String
  conversationId : String
  timestamp : Nat
  operationId : String
  leaveConversation : Bool
deriving DecidableEq

/-- Embedding of the agentFinishSendingMessage handler
(src/convex/aiTown/agentInputs.ts): missing agent, player or conversation
throws (all before any mutation); a missing or mismatched
inProgressOperation returns null with no change; otherwise the fence is
cleared, finishSendingMessage is delegated, and when leaveConversation is
set the conversation's leave is delegated. -/
def agentFinishSendingMessage (g : GameState) (now : Nat)
    (args : AgentFinishSendingMessageArgs) : GameState × Except String Unit :=
  match g.agents.lookup args.agentId with
  | none => (g, Except.error ("Couldn't find agent: " ++ args.agentId))
  | some agent =>
    match g.players.lookup agent.playerId with
    | none => (g, Except.error ("Couldn't find player: " ++ agent.playerId))
    | some _player =>
      match g.conversations.lookup args.conversationId with
      | none => (g, Except.error ("Couldn't find conversation: " ++ args.conversationId))
      | some _conversation =>
        match agent.inProgressOperation with
        | none => (g, Except.ok ())
        | some op =>
          if op.operationId != args.operationId then (g, Except.ok ())
          else
            let agent1 := { agent with inProgressOperation := none }
            let g1 := { g with agents := setAgent g.agents args.agentId agent1 }
            let g2 := { g1 with effects := g1.effects ++
                          [Effect.finishSendingMessage agent.playerId args.conversationId args.timestamp] }
            let g3 :=
              if args.leaveConversation then
                { g2 with effects := g2.effects ++ [Effect.leave args.conversationId agent.playerId now] }
              else g2
            (g3, Except.ok ())

/-! Helper lemmas about the embedded data operations. -/

theorem strData_append (a b : String) : (a ++ b).data = a.data ++ b.data := by
  cases a; cases b; rfl

theorem strEq_of_data (a b : String) (h : a.data = b.data) : a = b := by
  cases a; cases b; exact congrArg String.mk h

theorem tsToLower_append_colon (s : String) : tsToLower (s ++ ":") = tsToLower s ++ ":" := by
  apply strEq_of_data
  rw [strData_append]
  show ((s ++ ":").data.map Char.toLower) = s.data.map Char.toLower ++ (":" : String).data
  rw [strData_append]
  rw [List.map_append]
  rfl

theorem string_append_right_inj (k a b : String) (h : k ++ a = k ++ b) : a = b := by
  apply strEq_of_data
  have h1 := congrArg String.data h
  rw [strData_append, strData_append] at h1
  exact List.append_cancel_left h1

theorem setTokenFirst_find (l : List ConvRecord) (key : String) (v : Nat) :
    (setTokenFirst l key v).find? (fun r => r.conversationId == key) =
      (l.find? (fun r => r.conversationId == key)).map (fun r => { r with tokenCount := v }) := by
  induction l with
  | nil => rfl
  | cons r rs ih =>
    by_cases h : r.conversationId == key
    · simp [setTokenFirst, h, List.find?]
    · simp only [setTokenFirst, h, if_neg, Bool.false_eq_true, not_false_eq_true, List.find?]
      simp only [h, List.find?_cons_of_neg, ih]

theorem setTokenFirst_ids (l : List ConvRecord) (key : String) (v : Nat) :
    (setTokenFirst l key v).map (fun r => r.conversationId) =
      l.map (fun r => r.conversationId) := by
  induction l with
  | nil => rfl
  | cons r rs ih =>
    by_cases h : r.conversationId == key
    · simp [setTokenFirst, h]
    · simp [setTokenFirst, h, ih]

theorem lookup_filter_ne {β : Type} (l : List (String × β)) (k : String) :
    (l.filter (fun p => p.1 != k)).lookup k = none := by
  induction l with
  | nil => rfl
  | cons p ps ih =>
    by_cases h : p.1 = k
    · simp [List.filter_cons, h, ih]
    · have hne2 : (p.1 != k) = true := by simp [h]
      have hne : (k == p.1) = false := by
        simp only [beq_eq_false_iff_ne]
        exact fun hkk => h hkk.symm
      simp [List.filter_cons, hne2, List.lookup, hne, ih]

theorem lookup_setEntry {β : Type} (l : List (String × β)) (k : String) (a b : β)
    (h : l.lookup k = some b) :
    (l.map (fun p => if p.1 = k then (p.1, a) else p)).lookup k = some a := by
  induction l with
  | nil => simp [List.lookup] at h
  | cons p ps ih =>
    simp only [List.map]
    by_cases hk : p.1 = k
    · have h2 : (k == p.1) = true := by simp [hk]
      rw [if_pos hk]
      simp [List.lookup, h2]
    · have h2 : (k == p.1) = false := by
        simp only [beq_eq_false_iff_ne]
        exact fun hkk => hk hkk.symm
      simp only [List.lookup, h2] at h
      rw [if_neg hk]
      simp only [List.lookup, h2]
      exact ih h

theorem lookup_setEntry_other {β : Type} (l : List (String × β)) (k k2 : String) (a : β)
    (hne : k2 ≠ k) :
    (l.map (fun p => if p.1 = k then (p.1, a) else p)).lookup k2 = l.lookup k2 := by
  induction l with
  | nil => rfl
  | cons p ps ih =>
    simp only [List.map]
    by_cases hk : p.1 = k
    · have h2 : (k2 == p.1) = false := by
        simp only [beq_eq_false_iff_ne]
        exact fun hkk => hne (hkk.trans hk)
      rw [if_pos hk]
      simp only [List.lookup, h2]
      exact ih
    · rw [if_neg hk]
      simp only [List.lookup]
      cases hkp : (k2 == p.1) with
      | true => rfl
      | false => exact ih

/-- Claim C3 counterexample: recordUsage (updateTokens) does NOT create a
ConversationUsageRecord when the agent's conversationList has no record
with the matching conversationId. With an empty list, updateTokens leaves
it empty and no record with id Alice-Bob exists afterwards, contradicting
the claim that one is created with the reported value. -/
theorem updateTokens_no_record_created :
    (updateTokens [] (some []) "Alice" "Bob" 100).1 = [] ∧
    ((updateTokens [] (some []) "Alice" "Bob" 100).1.find?
      (fun r => r.conversationId == "Alice-Bob")) = none := by
  decide

/-- Claim C3 (amended): recordUsage (updateTokens) sets the stored
tokenCount of the first matching ConversationUsageRecord to the reported
cumulative total (it does not add to it); when no record with the matching
conversationId exists, the agent's conversationList is left unchanged in
its ids (no record is created). Stated through the find?-image of the
acting agent's updated list and the invariance of its conversationId map. -/
theorem updateTokens_sets_existing_only (agentList : List ConvRecord)
    (otherAgentList : Option (List ConvRecord)) (playerName otherPlayerName : String)
    (totalTokens : Nat) :
    ((updateTokens agentList otherAgentList playerName otherPlayerName totalTokens).1.find?
        (fun r => r.conversationId == playerName ++ "-" ++ otherPlayerName)) =
      (agentList.find? (fun r => r.conversationId == playerName ++ "-" ++ otherPlayerName)).map
        (fun r => { r with tokenCount := totalTokens }) ∧
    ((updateTokens agentList otherAgentList playerName otherPlayerName totalTokens).1.map
        (fun r => r.conversationId)) = agentList.map (fun r => r.conversationId) := by
  exact ⟨setTokenFirst_find agentList (playerName ++ "-" ++ otherPlayerName) totalTokens,
         setTokenFirst_ids agentList (playerName ++ "-" ++ otherPlayerName) totalTokens⟩

/-- Claim C4: startConversationMessage violates the at-most-one-record-per
conversationId invariant. The guard on the other agent's list checks for a
record with id otherPlayer-player but pushes the record with id
player-otherPlayer; after two starts of the same pair A, B from empty
lists, B's list holds two records with conversationId A-B. -/
theorem startConversation_duplicate_usage_record :
    (startConvListUpdate (startConvListUpdate [] (some []) "A" "B").1
        (startConvListUpdate [] (some []) "A" "B").2 "A" "B").2 =
      some [{ conversationId := "A-B", tokenCount := 0 },
            { conversationId := "A-B", tokenCount := 0 }] ∧
    ((startConvListUpdate (startConvListUpdate [] (some []) "A" "B").1
        (startConvListUpdate [] (some []) "A" "B").2 "A" "B").2.getD []).countP
      (fun r => r.conversationId == "A-B") = 2 := by
  decide

/-- Claim C5 counterexample: previousMessages takes the most recent message
regardless of its author. With Alice acting and Bob as partner, when the
last message was authored by Alice (p1), the produced context is Alice's
own message formatted Alice to Bob, not the most recent message authored
by the partner (which would be formatted Bob to Alice). -/
theorem previousMessages_last_message_own_author :
    previousMessages { id := "p1", name := "Alice" } { id := "p2", name := "Bob" }
        [{ author := "p2", text := "Hi Alice" }, { author := "p1", text := "Hi Bob" }] =
      [{ role := "user", content := "Alice to Bob: Hi Bob" }] ∧
    ([{ role := "user", content := "Alice to Bob: Hi Bob" }] : List LLMMessage) ≠
      [{ role := "user", content := "Bob to Alice: Hi Alice" }] := by
  decide

/-- Claim C5 (amended): for every continue or leave turn, the prior-message
context holds at most one message: the single most recent message of the
conversation regardless of author, formatted author to recipient: text
(with the acting player as author when the acting player wrote it);
when the conversation has no messages, no prior-message context is included. -/
theorem previousMessages_single_latest_any_author (player otherPlayer : PlayerRef)
    (prevMessages : List Message) :
    (previousMessages player otherPlayer prevMessages).length ≤ 1 ∧
    previousMessages player otherPlayer prevMessages =
      (prevMessages.getLast?.map (fun m =>
        ({ role := "user",
           content :=
             (if m.author == player.id then player.name else otherPlayer.name) ++ " to " ++
             (if m.author == player.id then otherPlayer.name else player.name) ++ ": " ++ m.text }
         : LLMMessage))).toList := by
  cases h : prevMessages.getLast? with
  | none => simp [previousMessages, h]
  | some m =>
    by_cases ha : m.author = player.id <;>
      simp [previousMessages, h, ha]

/-- Claim C6 counterexample: when the counterpart B is human, the initiator
A provisions only its own transcript A-B before dispatching the opening
generation; no provisioning event for the B-A direction occurs at all,
although a generation event is dispatched. -/
theorem startConversation_human_missing_direction :
    startConversationEvents "A" "B" true "Chat_Ai-Town-A" none =
      [ExtEvent.provisionTranscript (some "Chat_Ai-Town-A") "A-B",
       ExtEvent.generate "A-B" (stopWords "B" "A")] ∧
    ((startConversationEvents "A" "B" true "Chat_Ai-Town-A" none).countP
      (fun e => match e with
        | ExtEvent.provisionTranscript _ tid => tid == "B-A"
        | _ => false)) = 0 ∧
    ((startConversationEvents "A" "B" true "Chat_Ai-Town-A" none).countP
      (fun e => match e with
        | ExtEvent.generate _ _ => true
        | _ => false)) = 1 := by
  decide

/-- Claim C6 (amended): when the initiator starts a conversation and the
counterpart is not human, transcript resources for both directions (A-B
then B-A) are provisioned before the generation request for the opening
line is dispatched; when the counterpart is human, only the initiator's
own direction A-B is provisioned before dispatch. -/
theorem startConversation_provisioning_order (playerName otherPlayerName agentChatTableId : String)
    (otherAgentChatTableId : Option String) :
    startConversationEvents playerName otherPlayerName false agentChatTableId otherAgentChatTableId =
      [ExtEvent.provisionTranscript (some agentChatTableId) (playerName ++ "-" ++ otherPlayerName),
       ExtEvent.provisionTranscript otherAgentChatTableId (otherPlayerName ++ "-" ++ playerName),
       ExtEvent.generate (playerName ++ "-" ++ otherPlayerName) (stopWords otherPlayerName playerName)] ∧
    startConversationEvents playerName otherPlayerName true agentChatTableId otherAgentChatTableId =
      [ExtEvent.provisionTranscript (some agentChatTableId) (playerName ++ "-" ++ otherPlayerName),
       ExtEvent.generate (playerName ++ "-" ++ otherPlayerName) (stopWords otherPlayerName playerName)] := by
  constructor <;> rfl

/-- Claim C8: for every pair of display names, the stop-sequence list
supplied to the generation request is exactly the string
counterpart to speaker: followed by its character-wise lowercased variant,
and its size (two entries) never exceeds the external service's
stop-sequence limit of four. -/
theorem stopWords_exact_pair (otherPlayer player : String) :
    stopWords otherPlayer player =
      [(otherPlayer ++ " to " ++ player) ++ ":",
       tsToLower ((otherPlayer ++ " to " ++ player) ++ ":")] ∧
    (stopWords otherPlayer player).length ≤ 4 := by
  refine ⟨?_, ?_⟩
  · rw [tsToLower_append_colon]
    rfl
  · have h2 : (stopWords otherPlayer player).length = 2 := rfl
    rw [h2]
    decide

/-- The fencing mismatch condition shared by the three completion handlers:
the agent has no operation in flight, or the one in flight carries a
different fencing token than the completion. -/
def staleFence (agent : Agent) (operationId : String) : Prop :=
  agent.inProgressOperation = none ∨
    ∃ op, agent.inProgressOperation = some op ∧ op.operationId ≠ operationId

/-- Claim C1: for each completion handler (finishRememberConversation,
finishDoSomething, agentFinishSendingMessage), when the agent's
inProgressOperation is absent or carries a different operationId than the
completion, the handler returns null leaving the entire world state
unchanged — no agent or conversation state is mutated and no effect is
delegated. (For agentFinishSendingMessage the agent's player and the
conversation must resolve, since the handler looks them up before the
fence check.) -/
theorem finishRemember_stale_aux (g : GameState) (args : FinishRememberArgs) (agent : Agent)
    (hag : g.agents.lookup args.agentId = some agent)
    (hstale : staleFence agent args.operationId) :
    finishRememberConversation g args = (g, Except.ok ()) := by
  unfold finishRememberConversation
  rw [hag]
  dsimp only
  rcases hstale with h0 | ⟨op, hop, hne⟩
  · rw [h0]
  · rw [hop]
    have hb : (op.operationId != args.operationId) = true := by
      simpa [bne_iff_ne] using hne
    simp [hb]

theorem finishDoSomething_stale_aux (g : GameState) (now : Nat) (args : FinishDoSomethingArgs)
    (agent : Agent) (hag : g.agents.lookup args.agentId = some agent)
    (hstale : staleFence agent args.operationId) :
    finishDoSomething g now args = (g, Except.ok ()) := by
  unfold finishDoSomething
  rw [hag]
  dsimp only
  rcases hstale with h0 | ⟨op, hop, hne⟩
  · rw [h0]
  · rw [hop]
    have hb : (op.operationId != args.operationId) = true := by
      simpa [bne_iff_ne] using hne
    simp [hb]

theorem agentFinishSendingMessage_stale_aux (g : GameState) (now : Nat)
    (args : AgentFinishSendingMessageArgs) (agent : Agent) (pl : PlayerState)
    (conv : Conversation) (hag : g.agents.lookup args.agentId = some agent)
    (hpl : g.players.lookup agent.playerId = some pl)
    (hconv : g.conversations.lookup args.conversationId = some conv)
    (hstale : staleFence agent args.operationId) :
    agentFinishSendingMessage g now args = (g, Except.ok ()) := by
  unfold agentFinishSendingMessage
  rw [hag]
  dsimp only
  rw [hpl]
  dsimp only
  rw [hconv]
  dsimp only
  rcases hstale with h0 | ⟨op, hop, hne⟩
  · rw [h0]
  · rw [hop]
    have hb : (op.operationId != args.operationId) = true := by
      simpa [bne_iff_ne] using hne
    simp [hb]

theorem fenced_completion_stale_noop :
    (∀ (g : GameState) (args : FinishRememberArgs) (agent : Agent),
      g.agents.lookup args.agentId = some agent →
      staleFence agent args.operationId →
      finishRememberConversation g args = (g, Except.ok ())) ∧
    (∀ (g : GameState) (now : Nat) (args : FinishDoSomethingArgs) (agent : Agent),
      g.agents.lookup args.agentId = some agent →
      staleFence agent args.operationId →
      finishDoSomething g now args = (g, Except.ok ())) ∧
    (∀ (g : GameState) (now : Nat) (args : AgentFinishSendingMessageArgs)
      (agent : Agent) (pl : PlayerState) (conv : Conversation),
      g.agents.lookup args.agentId = some agent →
      g.players.lookup agent.playerId = some pl →
      g.conversations.lookup args.conversationId = some conv →
      staleFence agent args.operationId →
      agentFinishSendingMessage g now args = (g, Except.ok ())) :=
  ⟨finishRemember_stale_aux, finishDoSomething_stale_aux, agentFinishSendingMessage_stale_aux⟩

/-- An in-flight operation used by the concrete example world. -/
def opEx : Operation :=
  { operationId := "op1", name := "agentDoSomething", started := 5 }

/-- Example agent with no operation in flight. -/
def agentEx1 : Agent :=
  { id := "a1", playerId := "p1", inProgressOperation := none, lastConversation := none,
    lastInviteAttempt := none, toRemember := none,
    knowledgeTableId := "Knowledge_Ai-Town-Alice", chatTableId := "Chat_Ai-Town-Alice",
    conversationList := [] }

/-- Example agent with operation opEx in flight and a conversation to remember. -/
def agentEx2 : Agent :=
  { id := "a2", playerId := "p2", inProgressOperation := some opEx, lastConversation := none,
    lastInviteAttempt := none, toRemember := some "c1",
    knowledgeTableId := "Knowledge_Ai-Town-Bob", chatTableId := "Chat_Ai-Town-Bob",
    conversationList := [] }

/-- Example world with two agents, their players and one conversation. -/
def gEx : GameState :=
  { agents := [("a1", agentEx1), ("a2", agentEx2)],
    players := [("p1", { id := "p1", activity := none }), ("p2", { id := "p2", activity := none })],
    conversations := [("c1", { id := "c1", created := 0, numMessages := 2 })],
    effects := [] }

/-- Claim C1 witness: in the example world, a completion with token opX for
the idle agent a1 and a completion with token opZ against agent a2's
in-flight token op1 are all discarded with the world unchanged. -/
theorem fenced_completion_stale_noop_witness :
    finishRememberConversation gEx { operationId := "opX", agentId := "a1" } = (gEx, Except.ok ()) ∧
    finishDoSomething gEx 10
      { operationId := "opZ", agentId := "a2", destination := none, invitee := none, activity := none } =
      (gEx, Except.ok ()) ∧
    agentFinishSendingMessage gEx 10
      { agentId := "a2", conversationId := "c1", timestamp := 3, operationId := "opZ", leaveConversation := true } =
      (gEx, Except.ok ()) := by
  refine ⟨?_, ?_, ?_⟩
  · exact fenced_completion_stale_noop.1 gEx _ agentEx1 (by decide) (Or.inl rfl)
  · exact fenced_completion_stale_noop.2.1 gEx 10 _ agentEx2 (by decide)
      (Or.inr ⟨opEx, rfl, by decide⟩)
  · exact fenced_completion_stale_noop.2.2 gEx 10 _ agentEx2
      { id := "p2", activity := none } { id := "c1", created := 0, numMessages := 2 }
      (by decide) (by decide) (by decide) (Or.inr ⟨opEx, rfl, by decide⟩)

/-- Claim C9: when finishRememberConversation receives a completion whose
operationId matches the agent's current inProgressOperation, it clears
both the inProgressOperation and the toRemember marker (and changes
nothing else); when the operationId does not match (or no operation is in
flight) it clears neither and leaves the world unchanged; in both cases
it returns null (Except.ok) rather than throwing. -/
theorem finishRememberConversation_fence :
    (∀ (g : GameState) (args : FinishRememberArgs) (agent : Agent) (op : Operation),
      g.agents.lookup args.agentId = some agent →
      agent.inProgressOperation = some op →
      op.operationId = args.operationId →
      finishRememberConversation g args =
        ({ g with agents := setAgent g.agents args.agentId { agent with inProgressOperation := none, toRemember := none } }, Except.ok ())) ∧
    (∀ (g : GameState) (args : FinishRememberArgs) (agent : Agent),
      g.agents.lookup args.agentId = some agent →
      staleFence agent args.operationId →
      finishRememberConversation g args = (g, Except.ok ())) := by
  refine ⟨?_, ?_⟩
  · intro g args agent op hag hop heq
    unfold finishRememberConversation
    rw [hag]
    dsimp only
    rw [hop]
    have hb : (op.operationId != args.operationId) = false := by
      simp [bne, heq]
    simp [hb]
  · intro g args agent hag hstale
    exact finishRemember_stale_aux g args agent hag hstale

/-- Claim C9 witness: in the example world, the completion op1 matching
agent a2's in-flight operation clears both markers and returns null; the
completion opX against idle agent a1 changes nothing and returns null. -/
theorem finishRememberConversation_fence_witness :
    finishRememberConversation gEx { operationId := "op1", agentId := "a2" } =
      ({ gEx with agents := setAgent gEx.agents "a2" { agentEx2 with inProgressOperation := none, toRemember := none } }, Except.ok ()) ∧
    finishRememberConversation gEx { operationId := "opX", agentId := "a1" } = (gEx, Except.ok ()) := by
  refine ⟨?_, ?_⟩
  · exact finishRememberConversation_fence.1 gEx _ agentEx2 opEx (by decide) rfl (by decide)
  · exact finishRememberConversation_fence.2 gEx _ agentEx1 (by decide) (Or.inl rfl)

/-- Claim C10: in finishDoSomething, when the fencing check passes but the
completion names an invitee player absent from the world, the handler
throws (Except.error) AFTER having already cleared the agent's
inProgressOperation: the error state carries the agent with its fence
cleared, so the failed completion is not atomic with respect to the agent
record. -/
theorem finishDoSomething_error_after_fence_clear
    (g : GameState) (now : Nat) (args : FinishDoSomethingArgs) (agent : Agent)
    (op : Operation) (pl : PlayerState) (inviteeId : String)
    (hag : g.agents.lookup args.agentId = some agent)
    (hop : agent.inProgressOperation = some op)
    (heq : op.operationId = args.operationId)
    (hpl : g.players.lookup agent.playerId = some pl)
    (hinv : args.invitee = some inviteeId)
    (hmiss : g.players.lookup inviteeId = none) :
    finishDoSomething g now args =
      ({ g with agents := setAgent g.agents args.agentId { agent with inProgressOperation := none } },
       Except.error ("Couldn't find player: " ++ inviteeId)) ∧
    (setAgent g.agents args.agentId { agent with inProgressOperation := none }).lookup args.agentId =
      some { agent with inProgressOperation := none } := by
  constructor
  · unfold finishDoSomething
    rw [hag]
    dsimp only
    rw [hop]
    dsimp only
    have hb : (op.operationId != args.operationId) = false := by
      simp [bne, heq]
    simp only [hb, Bool.false_eq_true, if_false]
    rw [hpl]
    dsimp only
    rw [hinv]
    dsimp only
    rw [hmiss]
  · exact lookup_setEntry g.agents args.agentId _ agent hag

/-- Claim C10 witness: in the example world, the matching completion op1
for agent a2 naming the absent invitee p9 errors out while the returned
world already holds a2 with its inProgressOperation cleared. -/
theorem finishDoSomething_error_after_fence_clear_witness :
    finishDoSomething gEx 10
      { operationId := "op1", agentId := "a2", destination := none, invitee := some "p9", activity := none } =
      ({ gEx with agents := setAgent gEx.agents "a2" { agentEx2 with inProgressOperation := none } },
       Except.error ("Couldn't find player: " ++ "p9")) ∧
    (setAgent gEx.agents "a2" { agentEx2 with inProgressOperation := none }).lookup "a2" =
      some { agentEx2 with inProgressOperation := none } := by
  exact finishDoSomething_error_after_fence_clear gEx 10 _ agentEx2 opEx
    { id := "p2", activity := none } "p9" (by decide) rfl (by decide) (by decide) rfl (by decide)

/-- Knowledge table ids of distinct agents are distinct. -/
theorem knowledge_key_ne (p o : String) (hne : p ≠ o) :
    (("Knowledge_Ai-Town-" ++ o) == ("Knowledge_Ai-Town-" ++ p)) = false := by
  simp only [beq_eq_false_iff_ne]
  exact fun h => hne (string_append_right_inj _ _ _ h).symm

/-- Claim C2: a single invocation of dumpConversationTable for a
conversation between two (distinct) agent participants with both
directional transcripts present uploads exactly one memory document into
each participant's knowledge store (first the acting player's, then the
counterpart's), deletes the acting direction's transcript resource, and
resets the stored tokenCount of the acting agent's matching
ConversationUsageRecord to zero. -/
theorem dumpConversationTable_consolidates
    (st : ExternalState) (playerName otherPlayerName : String)
    (agentList : List ConvRecord) (otherIdentity : Option String) (rows1 rows2 : List Row)
    (hpo : st.chatTables.lookup (playerName ++ "-" ++ otherPlayerName) = some rows1)
    (hop : st.chatTables.lookup (otherPlayerName ++ "-" ++ playerName) = some rows2)
    (hne : playerName ≠ otherPlayerName) :
    (∃ c1 c2,
      (dumpConversationTable st playerName otherPlayerName agentList otherIdentity).1.uploads =
        st.uploads ++ [("Knowledge_Ai-Town-" ++ playerName, c1), ("Knowledge_Ai-Town-" ++ otherPlayerName, c2)]) ∧
    ((dumpConversationTable st playerName otherPlayerName agentList otherIdentity).1.uploads.countP
        (fun u => u.1 == "Knowledge_Ai-Town-" ++ playerName)) =
      st.uploads.countP (fun u => u.1 == "Knowledge_Ai-Town-" ++ playerName) + 1 ∧
    ((dumpConversationTable st playerName otherPlayerName agentList otherIdentity).1.uploads.countP
        (fun u => u.1 == "Knowledge_Ai-Town-" ++ otherPlayerName)) =
      st.uploads.countP (fun u => u.1 == "Knowledge_Ai-Town-" ++ otherPlayerName) + 1 ∧
    ((dumpConversationTable st playerName otherPlayerName agentList otherIdentity).1.chatTables.lookup
        (playerName ++ "-" ++ otherPlayerName)) = none ∧
    ((dumpConversationTable st playerName otherPlayerName agentList otherIdentity).2.find?
        (fun r => r.conversationId == playerName ++ "-" ++ otherPlayerName)) =
      (agentList.find? (fun r => r.conversationId == playerName ++ "-" ++ otherPlayerName)).map
        (fun r => { r with tokenCount := 0 }) := by
  have hmain : dumpConversationTable st playerName otherPlayerName agentList otherIdentity =
      ({ chatTables := st.chatTables.filter (fun q => q.1 != playerName ++ "-" ++ otherPlayerName),
         uploads := st.uploads ++
           [("Knowledge_Ai-Town-" ++ playerName,
             String.intercalate "\n" (dumpMemoryLines (rows1.take 100) playerName otherPlayerName otherIdentity)),
            ("Knowledge_Ai-Town-" ++ otherPlayerName,
             String.intercalate "\n" (dumpMemoryLines (rows2.take 100) otherPlayerName playerName otherIdentity))] },
       setTokenFirst agentList (playerName ++ "-" ++ otherPlayerName) 0) := by
    have h1 : getChatTableRows st (playerName ++ "-" ++ otherPlayerName) 0 100 = some (rows1.take 100) := by
      simp [getChatTableRows, jamaiListRows, hpo]
    have h2 : getChatTableRows (dumpMemory st (rows1.take 100) playerName otherPlayerName otherIdentity)
        (otherPlayerName ++ "-" ++ playerName) 0 100 = some (rows2.take 100) := by
      simp [getChatTableRows, jamaiListRows, dumpMemory, dumpMemoryIntoKnowledgeTable, hop]
    simp only [dumpConversationTable]
    rw [h1]
    dsimp only
    rw [h2]
    dsimp only
    unfold deleteConversationTable jamaiDeleteTable
    simp only [dumpMemory, dumpMemoryIntoKnowledgeTable]
    rw [hpo]
    dsimp only
    simp [List.append_assoc]
  have hk1 : (("Knowledge_Ai-Town-" ++ otherPlayerName) == ("Knowledge_Ai-Town-" ++ playerName)) = false :=
    knowledge_key_ne playerName otherPlayerName hne
  have hk2 : (("Knowledge_Ai-Town-" ++ playerName) == ("Knowledge_Ai-Town-" ++ otherPlayerName)) = false :=
    knowledge_key_ne otherPlayerName playerName (fun h => hne h.symm)
  refine ⟨⟨_, _, by rw [hmain]⟩, ?_, ?_, ?_, ?_⟩
  · rw [hmain]
    simp [List.countP_append, List.countP_cons, hk1]
  · rw [hmain]
    simp [List.countP_append, List.countP_cons, hk2]
  · rw [hmain]
    exact lookup_filter_ne st.chatTables (playerName ++ "-" ++ otherPlayerName)
  · rw [hmain]
    exact setTokenFirst_find agentList (playerName ++ "-" ++ otherPlayerName) 0

/-- Example external state: both directional transcripts of a conversation
between Al and Bo exist and nothing has been uploaded yet. -/
def stEx : ExternalState :=
  { chatTables := [("Al-Bo", []), ("Bo-Al", [])], uploads := [] }

/-- Claim C2 witness: consolidating the Al-Bo conversation in the example
external state uploads one document per participant store, deletes the
Al-Bo transcript, and zeroes Al's usage record for the conversation. -/
theorem dumpConversationTable_consolidates_witness :
    (∃ c1 c2,
      (dumpConversationTable stEx "Al" "Bo" [{ conversationId := "Al-Bo", tokenCount := 1500 }] (some "desc")).1.uploads =
        stEx.uploads ++ [("Knowledge_Ai-Town-" ++ "Al", c1), ("Knowledge_Ai-Town-" ++ "Bo", c2)]) ∧
    ((dumpConversationTable stEx "Al" "Bo" [{ conversationId := "Al-Bo", tokenCount := 1500 }] (some "desc")).1.uploads.countP
        (fun u => u.1 == "Knowledge_Ai-Town-" ++ "Al")) =
      stEx.uploads.countP (fun u => u.1 == "Knowledge_Ai-Town-" ++ "Al") + 1 ∧
    ((dumpConversationTable stEx "Al" "Bo" [{ conversationId := "Al-Bo", tokenCount := 1500 }] (some "desc")).1.uploads.countP
        (fun u => u.1 == "Knowledge_Ai-Town-" ++ "Bo")) =
      stEx.uploads.countP (fun u => u.1 == "Knowledge_Ai-Town-" ++ "Bo") + 1 ∧
    ((dumpConversationTable stEx "Al" "Bo" [{ conversationId := "Al-Bo", tokenCount := 1500 }] (some "desc")).1.chatTables.lookup
        ("Al" ++ "-" ++ "Bo")) = none ∧
    ((dumpConversationTable stEx "Al" "Bo" [{ conversationId := "Al-Bo", tokenCount := 1500 }] (some "desc")).2.find?
        (fun r => r.conversationId == "Al" ++ "-" ++ "Bo")) =
      (([{ conversationId := "Al-Bo", tokenCount := 1500 }] : List ConvRecord).find?
        (fun r => r.conversationId == "Al" ++ "-" ++ "Bo")).map
        (fun r => { r with tokenCount := 0 }) := by
  exact dumpConversationTable_consolidates stEx "Al" "Bo"
    [{ conversationId := "Al-Bo", tokenCount := 1500 }] (some "desc") [] []
    (by decide) (by decide) (by decide)

/-- Claim C7: when consolidation's read of the acting direction's
transcript finds nothing (the resource is already gone),
dumpConversationTable completes normally — it is a total function here
because every external error is caught — and uploads no memory document
into the acting player's knowledge store for that direction; likewise a
delete of an already-deleted transcript completes normally and leaves the
external state unchanged (treated as success, not an error). -/
theorem dumpConversationTable_gone_is_noop
    (st : ExternalState) (playerName otherPlayerName : String)
    (agentList : List ConvRecord) (otherIdentity : Option String)
    (hmiss : st.chatTables.lookup (playerName ++ "-" ++ otherPlayerName) = none)
    (hne : playerName ≠ otherPlayerName) :
    ((dumpConversationTable st playerName otherPlayerName agentList otherIdentity).1.uploads.countP
        (fun u => u.1 == "Knowledge_Ai-Town-" ++ playerName)) =
      st.uploads.countP (fun u => u.1 == "Knowledge_Ai-Town-" ++ playerName) ∧
    deleteConversationTable st (playerName ++ "-" ++ otherPlayerName) = st := by
  have hdel : deleteConversationTable st (playerName ++ "-" ++ otherPlayerName) = st := by
    unfold deleteConversationTable jamaiDeleteTable
    rw [hmiss]
  have hk1 : (("Knowledge_Ai-Town-" ++ otherPlayerName) == ("Knowledge_Ai-Town-" ++ playerName)) = false :=
    knowledge_key_ne playerName otherPlayerName hne
  have h1 : getChatTableRows st (playerName ++ "-" ++ otherPlayerName) 0 100 = none := by
    simp [getChatTableRows, jamaiListRows, hmiss]
  refine ⟨?_, hdel⟩
  simp only [dumpConversationTable]
  rw [h1]
  dsimp only
  cases h2 : getChatTableRows st (otherPlayerName ++ "-" ++ playerName) 0 100 with
  | none =>
    dsimp only
    rw [hdel]
  | some rows =>
    dsimp only
    have hdel2 : deleteConversationTable (dumpMemory st rows otherPlayerName playerName otherIdentity)
        (playerName ++ "-" ++ otherPlayerName) =
        dumpMemory st rows otherPlayerName playerName otherIdentity := by
      unfold deleteConversationTable jamaiDeleteTable
      simp only [dumpMemory, dumpMemoryIntoKnowledgeTable]
      rw [hmiss]
    rw [hdel2]
    simp [dumpMemory, dumpMemoryIntoKnowledgeTable, List.countP_append, List.countP_cons, hk1]

/-- Example external state for the second mover of consolidation: its own
direction Al-Bo is already deleted while Bo-Al still exists. -/
def stGone : ExternalState :=
  { chatTables := [("Bo-Al", [])], uploads := [] }

/-- Claim C7 witness: in the second-mover state, consolidating Al-Bo adds
no document to Al's knowledge store and deleting the absent Al-Bo
transcript returns the state unchanged. -/
theorem dumpConversationTable_gone_is_noop_witness :
    ((dumpConversationTable stGone "Al" "Bo" [] none).1.uploads.countP
        (fun u => u.1 == "Knowledge_Ai-Town-" ++ "Al")) =
      stGone.uploads.countP (fun u => u.1 == "Knowledge_Ai-Town-" ++ "Al") ∧
    deleteConversationTable stGone ("Al" ++ "-" ++ "Bo") = stGone := by
  exact dumpConversationTable_gone_is_noop stGone "Al" "Bo" [] none (by decide) (by decide)
